import Mathlib

/-!
Verification of the connectivity/fallback core of the MediChain front-end
(`src/client/src/App.js`): the mock IPFS store (`mockIpfs`), the mock
contract and its PromiEvent simulation (`createMockContract`,
`createMockPromiEvent`), the content-store resolver (`setupIPFS`), the
ledger resolver (`getContractInstance`) and the orchestrating `App`
component's initial state.

External effects (the browser provider, network queries, the liveness
probes, `Math.random()`) are modelled as explicit inputs; JavaScript
exceptions are modelled with `Except`.
-/

/-- Errors a JavaScript async call can reject with (timeout, connection
refused, protocol error, or any other runtime error). -/
inductive JsError
  | timeout
  | refused
  | protocol
  | other (msg : String)
deriving DecidableEq

/-- UTF-8 encoding of a single Unicode code point, as the list of its
byte values.  This models what `TextEncoder().encode` does per character. -/
def utf8Bytes (n : Nat) : List Nat :=
  if n < 0x80 then [n]
  else if n < 0x800 then [0xC0 + n / 64, 0x80 + n % 64]
  else if n < 0x10000 then [0xE0 + n / 4096, 0x80 + (n / 64) % 64, 0x80 + n % 64]
  else [0xF0 + n / 262144, 0x80 + (n / 4096) % 64, 0x80 + (n / 64) % 64, 0x80 + n % 64]

/-- `new TextEncoder().encode(s)`: the UTF-8 byte sequence of a string. -/
def utf8Encode (s : String) : List Nat :=
  s.data.flatMap fun c => utf8Bytes c.toNat

/-- JavaScript `s.substring(a, b)`: the characters of `s` from index `a`
(inclusive) to index `b` (exclusive), with out-of-range indices clamped. -/
def jsSubstring (s : String) (a b : Nat) : String :=
  ((s.data.drop a).take (b - a)).asString

/-- The stream of values produced by successive `Math.random().toString(36)`
calls, with a cursor marking how many have been consumed so far. -/
structure RandState where
  stream : Nat → String
  idx : Nat

/-- The identifier `mockIpfs.add` builds from one random draw `r`:
`'Qm' + r.substring(2, 48)` (App.js line 18). -/
def mkMockHash (r : String) : String :=
  "Qm" ++ jsSubstring r 2 48

/-- `mockIpfs.add(content)` (App.js lines 15-20): ignores `content`,
draws one random value and returns the synthesized hash (the `path`
field of the returned object), advancing the random stream. -/
def mockIpfsAdd (st : RandState) (content : List Nat) : String × RandState :=
  (mkMockHash (st.stream st.idx), ⟨st.stream, st.idx + 1⟩)

/-- `mockIpfs.cat(hash)` (App.js lines 21-24): returns the UTF-8 bytes of
`'Mock file content for hash: ' + hash`; reads and writes no state. -/
def mockIpfsCat (st : RandState) (hash : String) : List Nat × RandState :=
  (utf8Encode ("Mock file content for hash: " ++ hash), st)

/-- The value a mock write operation resolves with:
`{ transactionHash: '0xmock...' }`. -/
structure MockTxResult where
  transactionHash : String
deriving DecidableEq

/-- The object `createMockPromiEvent(result)` returns (App.js lines 30-49);
its behaviour is captured by `promiEventOn` and `promiEventResolve` below. -/
structure MockPromiEvent where
  result : MockTxResult
deriving DecidableEq

/-- Delay (ms) before the `transactionHash` callback fires (App.js line 34). -/
def txHashDelayMs : Nat := 100

/-- Delay (ms) before `then` resolves the event (App.js line 41). -/
def resolveDelayMs : Nat := 200

/-- `mockEvent.on(event, callback)` (App.js lines 32-39): for
`'transactionHash'` it schedules the callback with the result's hash after
`txHashDelayMs`; for every other event name, `'error'` included, no
callback is ever scheduled. -/
def promiEventOn (e : MockPromiEvent) (event : String) : Option (Nat × String) :=
  if event = "transactionHash" then some (txHashDelayMs, e.result.transactionHash)
  else none

/-- `mockEvent.then(resolve)` (App.js lines 40-43): schedules resolution
with the full result after `resolveDelayMs`. -/
def promiEventResolve (e : MockPromiEvent) : Nat × MockTxResult :=
  (resolveDelayMs, e.result)

/-- `createMockPromiEvent(result)` (App.js line 30). -/
def createMockPromiEvent (result : MockTxResult) : MockPromiEvent :=
  { result := result }

/-- A mock write method: `() => ({ send: () => createMockPromiEvent(...) })`.
The field holds the event `send()` returns. -/
structure MockWriteMethod where
  send : MockPromiEvent
deriving DecidableEq

/-- Result of `patientInfo().call()` (App.js lines 57-66).  The JavaScript
field `exists` is a Lean keyword and is rendered `existsFlag`. -/
structure MockPatientInfo where
  name : String
  email : String
  age : String
  record : String
  existsFlag : Bool
  policyActive : Bool
deriving DecidableEq

/-- Result of `doctorInfo().call()` (App.js lines 67-73). -/
structure MockDoctorInfo where
  name : String
  email : String
  existsFlag : Bool
deriving DecidableEq

/-- Result of `insurerInfo().call()` (App.js lines 74-80). -/
structure MockInsurerInfo where
  name : String
  email : String
  existsFlag : Bool
deriving DecidableEq

/-- The object `createMockContract(web3)` returns (App.js lines 51-115):
read methods hold the constant value their `call()` resolves with, write
methods hold the PromiEvent their `send()` returns, and `optionsAddress`
is `options.address`. -/
structure MockContract where
  register : MockWriteMethod
  login : String
  patientInfo : MockPatientInfo
  doctorInfo : MockDoctorInfo
  insurerInfo : MockInsurerInfo
  getPatientDoctorList : List String
  getDoctorPatientList : List String
  getPatientTransactions : List String
  getDoctorTransactions : List String
  getInsurerPolicyList : List String
  getInsurerClaims : List String
  getAllPolicies : List String
  getAllDoctorsAddress : List String
  getAllInsurersAddress : List String
  permitAccess : MockWriteMethod
  buyPolicy : MockWriteMethod
  revokeAccess : MockWriteMethod
  insuranceClaimRequest : MockWriteMethod
  createPolicy : MockWriteMethod
  approveClaimsByInsurer : MockWriteMethod
  rejectClaimsByInsurer : MockWriteMethod
  optionsAddress : String
deriving DecidableEq

/-- `createMockContract(web3)` (App.js lines 28-116).  The `web3` argument
is unused by the mock, as in the source. -/
def createMockContract (web3 : Unit) : MockContract :=
  { register := ⟨createMockPromiEvent ⟨"0xmock123"⟩⟩
    login := "1"
    patientInfo :=
      { name := "Test Patient", email := "patient@test.com", age := "30",
        record := "QmMockHash123", existsFlag := true, policyActive := false }
    doctorInfo :=
      { name := "Test Doctor", email := "doctor@test.com", existsFlag := true }
    insurerInfo :=
      { name := "Test Insurer", email := "insurer@test.com", existsFlag := true }
    getPatientDoctorList := []
    getDoctorPatientList := []
    getPatientTransactions := []
    getDoctorTransactions := []
    getInsurerPolicyList := []
    getInsurerClaims := []
    getAllPolicies := []
    getAllDoctorsAddress := []
    getAllInsurersAddress := []
    permitAccess := ⟨createMockPromiEvent ⟨"0xmock456"⟩⟩
    buyPolicy := ⟨createMockPromiEvent ⟨"0xmock789"⟩⟩
    revokeAccess := ⟨createMockPromiEvent ⟨"0xmockABC"⟩⟩
    insuranceClaimRequest := ⟨createMockPromiEvent ⟨"0xmockDEF"⟩⟩
    createPolicy := ⟨createMockPromiEvent ⟨"0xmockGHI"⟩⟩
    approveClaimsByInsurer := ⟨createMockPromiEvent ⟨"0xmockJKL"⟩⟩
    rejectClaimsByInsurer := ⟨createMockPromiEvent ⟨"0xmockMNO"⟩⟩
    optionsAddress := "0xMockContractAddress" }

/-- The events returned by `send()` of the eight simulated write
operations, in source order: register, permitAccess, buyPolicy,
revokeAccess, insuranceClaimRequest, createPolicy, approveClaimsByInsurer,
rejectClaimsByInsurer. -/
def mockWriteEvents (c : MockContract) : List MockPromiEvent :=
  [c.register.send, c.permitAccess.send, c.buyPolicy.send, c.revokeAccess.send,
   c.insuranceClaimRequest.send, c.createPolicy.send,
   c.approveClaimsByInsurer.send, c.rejectClaimsByInsurer.send]

/-- One entry of `MediChain.networks`.  Modelled from the spec: the
bundled artifact `./contracts/MediChain.json` is not part of `src/`; per
the spec a DeploymentRecord maps a network identity to a deployed contract
address (the interface description lives in the artifact's `abi` field,
modelled separately in `Web3Env.abi`). -/
structure NetworkData where
  address : String
deriving DecidableEq

/-- The placeholder address that marks a record as not actually deployed
(App.js line 167). -/
def sentinelAddress : String := "0x9876543210987654321098765432109876543210"

/-- A resolved ledger handle: either a real contract bound to an
interface and an address (`new web3.eth.Contract(MediChain.abi, address)`),
or the mock contract. -/
inductive LedgerHandle
  | real (abi : String) (address : String)
  | mock (c : MockContract)
deriving DecidableEq

/-- The external world `getContractInstance` interacts with: the outcome
of each fallible step and the bundled configuration.  Modelled from the
spec where the data is the missing `MediChain.json` artifact (the
`networks` table and `abi`); the step outcomes model the provider and the
chain. -/
structure Web3Env where
  /-- Outcome of `new Web3(window.ethereum || Web3.givenProvider || ...)`
  (App.js line 162). -/
  newWeb3 : Except JsError Unit
  /-- Outcome of `await web3.eth.net.getId()` (App.js line 163). -/
  getId : Except JsError Nat
  /-- The bundled `MediChain.networks` deployment table (App.js line 166). -/
  networks : Nat → Option NetworkData
  /-- The bundled `MediChain.abi` interface description. -/
  abi : String
  /-- Outcome of `new web3.eth.Contract(MediChain.abi, addr)` at a given
  address (App.js line 169). -/
  newContract : String → Except JsError Unit
  /-- Outcome of the liveness probe `mediChain.methods.name().call()`
  against a contract at a given address (App.js line 173). -/
  nameCall : String → Except JsError Unit

/-- The body of the outer `try` of `getContractInstance` (App.js lines
161-187).  An `Except.error` is an exception escaping to the outer
`catch`; the inner `try`/`catch` around the probe is the inner match:
a probe failure falls through to the mock fallback (lines 182-186). -/
def getContractInstanceTry (env : Web3Env) : Except JsError LedgerHandle :=
  match env.newWeb3 with
  | Except.error e => Except.error e
  | Except.ok _ =>
    match env.getId with
    | Except.error e => Except.error e
    | Except.ok networkId =>
      match env.networks networkId with
      | some networkData =>
        if networkData.address ≠ sentinelAddress then
          match env.newContract networkData.address with
          | Except.error e => Except.error e
          | Except.ok _ =>
            match env.nameCall networkData.address with
            | Except.ok _ => Except.ok (LedgerHandle.real env.abi networkData.address)
            | Except.error _ => Except.ok (LedgerHandle.mock (createMockContract ()))
        else Except.ok (LedgerHandle.mock (createMockContract ()))
      | none => Except.ok (LedgerHandle.mock (createMockContract ()))

/-- `getContractInstance` (App.js lines 160-194): the value passed to
`setMediChain`.  The outer `catch` (lines 188-193) turns any escaped
exception into the mock contract, so the result is always a handle. -/
def getContractInstance (env : Web3Env) : LedgerHandle :=
  match getContractInstanceTry env with
  | Except.ok h => h
  | Except.error _ => LedgerHandle.mock (createMockContract ())

/-- The options passed to `create({url, timeout})` (App.js lines 122-125). -/
structure IpfsClientConfig where
  url : String
  timeout : Nat
deriving DecidableEq

/-- The configured IPFS endpoint and timeout (App.js lines 123-124). -/
def ipfsClientConfig : IpfsClientConfig :=
  { url := "http://127.0.0.1:5001/api/v0", timeout := 3000 }

/-- A resolved content-store handle: the real client bound to its
configuration, or the mock store. -/
inductive IpfsHandle
  | real (cfg : IpfsClientConfig)
  | mock
deriving DecidableEq

/-- The external world `setupIPFS` interacts with: the outcome of each
successive `ipfs.version()` call, with a cursor counting the calls made. -/
structure IpfsProbeState where
  versionOutcome : Nat → Except JsError Unit
  calls : Nat

/-- `await ipfs.version()` (App.js line 128): consumes one probe outcome. -/
def ipfsVersionCall (s : IpfsProbeState) : Except JsError Unit × IpfsProbeState :=
  (s.versionOutcome s.calls, ⟨s.versionOutcome, s.calls + 1⟩)

/-- `setupIPFS` (App.js lines 119-137): builds the client with
`ipfsClientConfig`, makes one `version()` probe; on success returns the
real client, on any failure the `catch` returns `mockIpfs`. -/
def setupIPFS (s : IpfsProbeState) : IpfsHandle × IpfsProbeState :=
  let r := ipfsVersionCall s
  match r.1 with
  | Except.ok _ => (IpfsHandle.real ipfsClientConfig, r.2)
  | Except.error _ => (IpfsHandle.mock, r.2)

/-- The `App` component's state hooks (App.js lines 140-143):
`account`, `token`, `mediChain` (nullable) and `ipfs`. -/
structure AppState where
  account : String
  token : String
  mediChain : Option LedgerHandle
  ipfs : IpfsHandle

/-- The initial values of the four `useState` hooks (App.js lines
140-143): empty strings, `null` for the contract handle, and the mock
IPFS for the store handle. -/
def initialAppState : AppState :=
  { account := "", token := "", mediChain := none, ipfs := IpfsHandle.mock }

/-- The state after `getContractInstance` resolves and calls
`setMediChain` (App.js lines 174, 186, 192): the handle becomes non-null. -/
def afterLedgerResolution (s : AppState) (env : Web3Env) : AppState :=
  { s with mediChain := some (getContractInstance env) }

/-- C1: for every network identity that is absent from the deployment
table, or whose record's address equals the sentinel placeholder address,
`getContractInstance` publishes the simulated (mock) contract handle. -/
theorem c1_absent_or_sentinel_gives_mock (env : Web3Env) (nid : Nat)
    (hget : env.getId = Except.ok nid)
    (habs : env.networks nid = none ∨
      ∃ nd, env.networks nid = some nd ∧ nd.address = sentinelAddress) :
    getContractInstance env = LedgerHandle.mock (createMockContract ()) := by
  cases hw : env.newWeb3 with
  | error e => simp [getContractInstance, getContractInstanceTry, hw]
  | ok u =>
    rcases habs with hnone | ⟨nd, hsome, hsent⟩
    · simp [getContractInstance, getContractInstanceTry, hw, hget, hnone]
    · simp [getContractInstance, getContractInstanceTry, hw, hget, hsome, hsent]

/-- Environment for the C1 witness: network identity 1337 with an empty
deployment table. -/
def c1Env : Web3Env :=
  { newWeb3 := Except.ok (), getId := Except.ok 1337,
    networks := fun _ => none, abi := "MediChainAbi",
    newContract := fun _ => Except.ok (), nameCall := fun _ => Except.ok () }

/-- C1 witness: on a concrete environment whose table has no entry for
the queried network, resolution yields the mock handle. -/
theorem c1_absent_or_sentinel_gives_mock_witness :
    getContractInstance c1Env = LedgerHandle.mock (createMockContract ()) :=
  c1_absent_or_sentinel_gives_mock c1Env 1337 rfl (Or.inl rfl)

/-- C2: for every network identity mapped to a non-sentinel address, if
construction of the contract binding and the `name()` liveness probe at
that address succeed, `getContractInstance` publishes the real handle
bound to exactly the recorded address and the bundled interface. -/
theorem c2_live_nonsentinel_gives_real (env : Web3Env) (nid : Nat) (nd : NetworkData)
    (h0 : env.newWeb3 = Except.ok ())
    (h1 : env.getId = Except.ok nid)
    (h2 : env.networks nid = some nd)
    (h3 : nd.address ≠ sentinelAddress)
    (h4 : env.newContract nd.address = Except.ok ())
    (h5 : env.nameCall nd.address = Except.ok ()) :
    getContractInstance env = LedgerHandle.real env.abi nd.address := by
  simp [getContractInstance, getContractInstanceTry, h0, h1, h2, h3, h4, h5]

/-- Environment for the C2 witness: the spec's scenario, network 5777
mapped to "0xREAL" with a succeeding probe. -/
def c2Env : Web3Env :=
  { newWeb3 := Except.ok (), getId := Except.ok 5777,
    networks := fun n => if n = 5777 then some ⟨"0xREAL"⟩ else none,
    abi := "MediChainAbi",
    newContract := fun _ => Except.ok (), nameCall := fun _ => Except.ok () }

/-- C2 witness: on the concrete scenario environment, resolution yields
the real handle bound to "0xREAL". -/
theorem c2_live_nonsentinel_gives_real_witness :
    getContractInstance c2Env = LedgerHandle.real "MediChainAbi" "0xREAL" :=
  c2_live_nonsentinel_gives_real c2Env 5777 ⟨"0xREAL"⟩ rfl rfl (by simp [c2Env])
    (by decide) rfl rfl

/-- C3: ledger resolution never raises: any exception escaping the `try`
body is caught and the mock handle is published, and on every environment
the result is either the mock handle or the real handle reached only
through the full success path. -/
theorem c3_resolution_never_raises (env : Web3Env) :
    (∀ e, getContractInstanceTry env = Except.error e →
        getContractInstance env = LedgerHandle.mock (createMockContract ())) ∧
    (getContractInstance env = LedgerHandle.mock (createMockContract ()) ∨
      ∃ nid nd, env.getId = Except.ok nid ∧ env.networks nid = some nd ∧
        nd.address ≠ sentinelAddress ∧ env.nameCall nd.address = Except.ok () ∧
        getContractInstance env = LedgerHandle.real env.abi nd.address) := by
  constructor
  · intro e he
    unfold getContractInstance
    rw [he]
  · cases hw : env.newWeb3 with
    | error e => left; simp [getContractInstance, getContractInstanceTry, hw]
    | ok u =>
      cases hg : env.getId with
      | error e => left; simp [getContractInstance, getContractInstanceTry, hw, hg]
      | ok nid =>
        cases hn : env.networks nid with
        | none => left; simp [getContractInstance, getContractInstanceTry, hw, hg, hn]
        | some nd =>
          by_cases hs : nd.address = sentinelAddress
          · left
            simp [getContractInstance, getContractInstanceTry, hw, hg, hn, hs]
          · cases hc : env.newContract nd.address with
            | error e =>
              left
              simp [getContractInstance, getContractInstanceTry, hw, hg, hn, hs, hc]
            | ok u2 =>
              cases hp : env.nameCall nd.address with
              | error e =>
                left
                simp [getContractInstance, getContractInstanceTry, hw, hg, hn, hs, hc, hp]
              | ok u3 =>
                right
                cases u3
                exact ⟨nid, nd, rfl, hn, hs, hp, by
                  simp [getContractInstance, getContractInstanceTry, hw, hg, hn, hs, hc, hp]⟩

/-- Environment for the C3 witness: the network-identity query itself
rejects. -/
def c3Env : Web3Env :=
  { newWeb3 := Except.ok (), getId := Except.error JsError.timeout,
    networks := fun _ => none, abi := "MediChainAbi",
    newContract := fun _ => Except.ok (), nameCall := fun _ => Except.ok () }

/-- C3 witness: on a concrete environment whose network query rejects,
the exception is caught and the mock handle is published. -/
theorem c3_resolution_never_raises_witness :
    getContractInstance c3Env = LedgerHandle.mock (createMockContract ()) :=
  (c3_resolution_never_raises c3Env).1 JsError.timeout rfl

/-- C4: `setupIPFS` makes exactly one version/liveness query (the probe
cursor advances by exactly one); if that query succeeds it returns the
real store handle bound to the configured endpoint, and on any failure it
returns the mock store; the configured connection timeout is 3000 ms. -/
theorem c4_one_probe_then_fallback (s : IpfsProbeState) :
    (setupIPFS s).2.calls = s.calls + 1 ∧
    (s.versionOutcome s.calls = Except.ok () →
      (setupIPFS s).1 = IpfsHandle.real ipfsClientConfig) ∧
    (∀ e, s.versionOutcome s.calls = Except.error e →
      (setupIPFS s).1 = IpfsHandle.mock) ∧
    ipfsClientConfig.timeout = 3000 := by
  refine ⟨?_, ?_, ?_, rfl⟩
  · unfold setupIPFS ipfsVersionCall
    cases s.versionOutcome s.calls <;> rfl
  · intro h
    unfold setupIPFS ipfsVersionCall
    rw [h]
  · intro e h
    unfold setupIPFS ipfsVersionCall
    rw [h]

/-- Probe state for the C4 witness: the first `version()` call rejects
with a timeout. -/
def c4Probe : IpfsProbeState :=
  { versionOutcome := fun _ => Except.error JsError.timeout, calls := 0 }

/-- C4 witness: on a concrete probe state whose first query times out,
`setupIPFS` has made exactly one query and returns the mock store. -/
theorem c4_one_probe_then_fallback_witness :
    (setupIPFS c4Probe).2.calls = 1 ∧ (setupIPFS c4Probe).1 = IpfsHandle.mock :=
  ⟨(c4_one_probe_then_fallback c4Probe).1,
   (c4_one_probe_then_fallback c4Probe).2.2.1 JsError.timeout rfl⟩

/-- String concatenation is left-cancellative. -/
theorem stringAppendLeftCancel {a b c : String} (h : a ++ b = a ++ c) : b = c := by
  cases a with
  | mk la =>
    cases b with
    | mk lb =>
      cases c with
      | mk lc =>
        have h2 : la ++ lb = la ++ lc := congrArg String.data h
        exact congrArg String.mk (List.append_cancel_left h2)

/-- Random stream for the C5 counterexample: `Math.random()` yields the
same value on two consecutive draws. -/
def c5ConstRand : RandState := ⟨fun _ => "0.abc123", 0⟩

/-- C5 counterexample: two calls to `mockIpfs.add` whose underlying
random draws coincide return the same identifier, so the identifiers of
a pair of calls are not always distinct. -/
theorem c5_counterexample_equal_ids_on_repeated_draw :
    (mockIpfsAdd c5ConstRand []).1 =
      (mockIpfsAdd (mockIpfsAdd c5ConstRand []).2 []).1 := by decide

/-- C5 (amended): for every pair of consecutive calls to `mockIpfs.add`
whose underlying random draws yield different truncated suffixes, the two
returned identifiers are distinct; and every returned identifier begins
with the fixed content-address prefix "Qm". -/
theorem c5_amended_distinct_ids_qm_prefix (st : RandState) (c1 c2 : List Nat)
    (hdiff : jsSubstring (st.stream st.idx) 2 48 ≠
      jsSubstring (st.stream (st.idx + 1)) 2 48) :
    (mockIpfsAdd st c1).1 ≠ (mockIpfsAdd (mockIpfsAdd st c1).2 c2).1 ∧
    (∃ s1, (mockIpfsAdd st c1).1 = "Qm" ++ s1) ∧
    (∃ s2, (mockIpfsAdd (mockIpfsAdd st c1).2 c2).1 = "Qm" ++ s2) := by
  refine ⟨?_, ⟨jsSubstring (st.stream st.idx) 2 48, rfl⟩,
    ⟨jsSubstring (st.stream (st.idx + 1)) 2 48, rfl⟩⟩
  intro h
  simp only [mockIpfsAdd, mkMockHash] at h
  exact hdiff (stringAppendLeftCancel h)

/-- Random stream for the C5 witness: two consecutive draws differ. -/
def c5FreshRand : RandState := ⟨fun n => if n = 0 then "0.aaa" else "0.bbb", 0⟩

/-- C5 witness: on a concrete state with two differing draws, the two
identifiers are distinct and both carry the "Qm" prefix. -/
theorem c5_amended_distinct_ids_qm_prefix_witness :
    (mockIpfsAdd c5FreshRand []).1 ≠
      (mockIpfsAdd (mockIpfsAdd c5FreshRand []).2 []).1 ∧
    (∃ s1, (mockIpfsAdd c5FreshRand []).1 = "Qm" ++ s1) ∧
    (∃ s2, (mockIpfsAdd (mockIpfsAdd c5FreshRand []).2 []).1 = "Qm" ++ s2) :=
  c5_amended_distinct_ids_qm_prefix c5FreshRand [] [] (by decide)

/-- C6: `mockIpfs.cat` is a pure function of the requested identifier:
its result does not depend on the surrounding state, it leaves the state
unchanged, and it returns exactly the UTF-8 bytes of
`'Mock file content for hash: '` followed by the identifier. -/
theorem c6_cat_pure_deterministic (st1 st2 : RandState) (hash : String) :
    (mockIpfsCat st1 hash).1 = (mockIpfsCat st2 hash).1 ∧
    (mockIpfsCat st1 hash).2 = st1 ∧
    (mockIpfsCat st1 hash).1 =
      utf8Encode ("Mock file content for hash: " ++ hash) :=
  ⟨rfl, rfl, rfl⟩

/-- C7: every simulated write operation's `send()` returns an event that
resolves to its fixed per-operation transaction result, the identifier is
non-empty, and no callback is ever scheduled for the `'error'`
subscription; the eight identifiers are exactly the source's constants. -/
theorem c7_writes_resolve_fixed_id_no_error :
    (∀ e ∈ mockWriteEvents (createMockContract ()),
      e.result.transactionHash ≠ "" ∧ promiEventOn e "error" = none ∧
      promiEventResolve e = (resolveDelayMs, e.result)) ∧
    (mockWriteEvents (createMockContract ())).map
        (fun e => e.result.transactionHash) =
      ["0xmock123", "0xmock456", "0xmock789", "0xmockABC",
       "0xmockDEF", "0xmockGHI", "0xmockJKL", "0xmockMNO"] := by
  decide

/-- C7 witness: the concrete `register` write's event has a non-empty
identifier, never schedules an error callback, and resolves to its fixed
result. -/
theorem c7_writes_resolve_fixed_id_no_error_witness :
    (createMockContract ()).register.send.result.transactionHash ≠ "" ∧
    promiEventOn (createMockContract ()).register.send "error" = none ∧
    promiEventResolve (createMockContract ()).register.send =
      (resolveDelayMs, (createMockContract ()).register.send.result) :=
  c7_writes_resolve_fixed_id_no_error.1 (createMockContract ()).register.send
    (by decide)

/-- C8: for every mock PromiEvent, a `transactionHash` subscription is
scheduled, and its delay is strictly smaller than the delay of the final
resolution, so the notification is delivered strictly before resolution. -/
theorem c8_txhash_before_resolution (e : MockPromiEvent) :
    (promiEventOn e "transactionHash").isSome = true ∧
    ∀ d h, promiEventOn e "transactionHash" = some (d, h) →
      d < (promiEventResolve e).1 := by
  constructor
  · simp [promiEventOn]
  · intro d h hdh
    simp [promiEventOn] at hdh
    obtain ⟨hd, hh⟩ := hdh
    simp [promiEventResolve, ← hd, txHashDelayMs, resolveDelayMs]

/-- Event for the C8 witness. -/
def c8Event : MockPromiEvent := createMockPromiEvent ⟨"0xmock123"⟩

/-- C8 witness: on a concrete event, the notification is scheduled and
its delay (100 ms) precedes the resolution delay (200 ms). -/
theorem c8_txhash_before_resolution_witness :
    (promiEventOn c8Event "transactionHash").isSome = true ∧
    txHashDelayMs < (promiEventResolve c8Event).1 :=
  ⟨(c8_txhash_before_resolution c8Event).1,
   (c8_txhash_before_resolution c8Event).2 txHashDelayMs "0xmock123" (by decide)⟩

/-- C9: at application start the ledger handle is `null` (`none`), not a
simulated handle, while the content-store handle already is the mock
store; after ledger resolution completes the ledger handle becomes the
(non-null) resolved handle. -/
theorem c9_initial_ledger_null_store_mock :
    initialAppState.mediChain = none ∧
    initialAppState.ipfs = IpfsHandle.mock ∧
    ∀ env : Web3Env, (afterLedgerResolution initialAppState env).mediChain =
      some (getContractInstance env) :=
  ⟨rfl, rfl, fun _ => rfl⟩

/-- Random stream for the C10 counterexample: the draw "0." has an empty
truncated suffix, so the generated identifier is exactly "Qm". -/
def c10Rand : RandState := ⟨fun _ => "0.", 0⟩

/-- The adversarial content for the C10 counterexample: the UTF-8 bytes
of the placeholder text that `cat` will produce for identifier "Qm". -/
def c10Content : List Nat := utf8Encode "Mock file content for hash: Qm"

/-- C10 counterexample: storing exactly the placeholder byte string that
`cat` synthesizes for the generated identifier makes
`retrieve(store(x))` return `x`, so the round trip is not never-equal. -/
theorem c10_counterexample_roundtrip_hits_content :
    (mockIpfsCat (mockIpfsAdd c10Rand c10Content).2
      (mockIpfsAdd c10Rand c10Content).1).1 = c10Content := by decide

/-- C10 (amended): the identifier returned by `mockIpfs.add` does not
depend on the stored content (same randomness, any two contents: equal
identifiers and equal final states); `retrieve(store(x))` returns the
deterministic placeholder for the generated identifier, which differs
from `x` whenever `x` is not itself that placeholder byte string. -/
theorem c10_amended_id_ignores_content (st : RandState) (c1 c2 x : List Nat) :
    (mockIpfsAdd st c1).1 = (mockIpfsAdd st c2).1 ∧
    (mockIpfsAdd st c1).2 = (mockIpfsAdd st c2).2 ∧
    (mockIpfsCat (mockIpfsAdd st x).2 (mockIpfsAdd st x).1).1 =
      utf8Encode ("Mock file content for hash: " ++ (mockIpfsAdd st x).1) ∧
    (x ≠ utf8Encode ("Mock file content for hash: " ++ (mockIpfsAdd st x).1) →
      (mockIpfsCat (mockIpfsAdd st x).2 (mockIpfsAdd st x).1).1 ≠ x) := by
  refine ⟨rfl, rfl, rfl, ?_⟩
  intro hx hcat
  exact hx hcat.symm

/-- C10 witness: for the empty content (which is not the placeholder),
the round trip does not return the stored content. -/
theorem c10_amended_id_ignores_content_witness :
    (mockIpfsCat (mockIpfsAdd c10Rand []).2 (mockIpfsAdd c10Rand []).1).1 ≠
      ([] : List Nat) :=
  (c10_amended_id_ignores_content c10Rand [] [] []).2.2.2 (by decide)
